import Mathlib

/-!
Shallow embedding of the authentication core of the Ecommerce-Store-App-MERN
backend: the token lifecycle (generateTokens, storeRefreshToken, setCookies),
the session-lifecycle controller handlers (signup, login, logout) and the
auth middleware chain (protectRoute, adminRoute), translated from
src/backend/controllers/auth.controller.js and
src/backend/middleware/auth.middleware.js.

Conventions of the embedding:
* Machine time is a `Nat` of seconds since epoch, passed explicitly as `now`.
* JWT signing is modelled symbolically: a signed token is a record of its
  payload claim (`userId`), the key it was signed with, and its `iat`/`exp`
  claims; a token string presented by a client is either such a record or a
  malformed string.  `jwt.verify` checks the signature (key identity) first
  and then expiry, as the jsonwebtoken library does, and is total here
  (returning a result variant) where the library throws.
* Redis is an association list from key strings to (value, ttl) pairs; `SET
  key value EX ttl` replaces any existing binding of the key.
* MongoDB is a list of user documents; `findOne({email})` / `findById` are
  `List.find?`; `User.create` appends a document with a caller-supplied fresh
  id and the schema's default role.
* Express responses are records of the status code, body and cookie
  operations the handler performed; calling `next()` is a distinct outcome
  constructor of the middleware's result type.
-/

namespace ECom

/-- The two process-wide signing secrets, `ACCESS_TOKEN_SECRET` and
`REFRESH_TOKEN_SECRET`, identified by which configuration variable they were
loaded from. -/
inductive SecretKey where
  | access
  | refresh
deriving DecidableEq, Repr

/-- A well-formed signed JWT: the `userId` payload claim together with the
signing key and the issued-at / expiry claims. -/
structure Token where
  userId : Nat
  key : SecretKey
  iat : Nat
  exp : Nat
deriving DecidableEq, Repr

/-- A token string as presented by a client: either a well-formed token
(signed with the key recorded in it) or a malformed string. -/
inductive PresentedToken where
  | valid (t : Token)
  | malformed
deriving DecidableEq, Repr

/-- Result of `jwt.verify`: success with the decoded `userId` claim,
`TokenExpiredError`, or any other verification failure
(`JsonWebTokenError`: bad signature or malformed token). -/
inductive VerifyResult where
  | ok (userId : Nat)
  | expired
  | invalid
deriving DecidableEq, Repr

/-- Model of `jwt.sign({userId}, key, {expiresIn})`: stamps the current time and the
expiry `now + duration` into the token. -/
def jwtSign (userId : Nat) (key : SecretKey) (now dur : Nat) : Token :=
  { userId := userId, key := key, iat := now, exp := now + dur }

/-- Model of `jwt.verify(token, key)` at time `now`: a malformed string or a
signature made with a different key fails `invalid`; a well-signed token
fails `expired` when `now ≥ exp` (jsonwebtoken rejects at and after the
`exp` claim) and otherwise succeeds with the `userId` claim. -/
def jwtVerify (tok : PresentedToken) (key : SecretKey) (now : Nat) : VerifyResult :=
  match tok with
  | .malformed => .invalid
  | .valid t =>
    if t.key ≠ key then .invalid
    else if t.exp ≤ now then .expired
    else .ok t.userId

/-- Access-token lifetime: `expiresIn: "15m"`. -/
def accessTokenTTL : Nat := 15 * 60

/-- Refresh-token lifetime: `expiresIn: "7d"`. -/
def refreshTokenTTL : Nat := 7 * 24 * 60 * 60

/-- Function `generateTokens(userId)` from auth.controller.js: an access token signed
with `ACCESS_TOKEN_SECRET` expiring in 15 minutes and a refresh token signed
with `REFRESH_TOKEN_SECRET` expiring in 7 days. -/
def generateTokens (userId now : Nat) : Token × Token :=
  (jwtSign userId .access now accessTokenTTL,
   jwtSign userId .refresh now refreshTokenTTL)

/-- The Redis keyspace: key string → (stored token, TTL in seconds). -/
abbrev RedisStore := List (String × Token × Nat)

/-- Model of `redis.set(k, v, "EX", ttl)`: binds `k`, replacing any prior binding. -/
def redisSet (store : RedisStore) (k : String) (v : Token) (ttl : Nat) : RedisStore :=
  (k, v, ttl) :: store.filter (fun e => e.1 ≠ k)

/-- Model of `redis.get(k)`. -/
def redisGet (store : RedisStore) (k : String) : Option (Token × Nat) :=
  (store.find? (fun e => e.1 = k)).map (fun e => e.2)

/-- Model of `redis.del(k)`. -/
def redisDel (store : RedisStore) (k : String) : RedisStore :=
  store.filter (fun e => e.1 ≠ k)

/-- The session-record key `refresh_token:{userId}`. -/
def refreshKey (userId : Nat) : String :=
  "refresh_token:" ++ toString userId

/-- Function `storeRefreshToken(userId, refreshToken)` from auth.controller.js:
`redis.set` under `refresh_token:{userId}` with `EX 7 * 24 * 60 * 60`. -/
def storeRefreshToken (userId : Nat) (refreshToken : Token) (store : RedisStore) : RedisStore :=
  redisSet store (refreshKey userId) refreshToken (7 * 24 * 60 * 60)

/-- Number of live entries under a key. -/
def countKey (store : RedisStore) (k : String) : Nat :=
  (store.filter (fun e => e.1 = k)).length

/-- A MongoDB user document of the User model: `_id`, name, email, password
hash, role. -/
structure UserDoc where
  _id : Nat
  name : String
  email : String
  password : String
  role : String
deriving DecidableEq, Repr

/-- Modelled from the spec: user.model.js is not under src/; §3 gives the
role enum `member | admin` with signup creating non-admin users, so the
schema default role is `member`. -/
def defaultRole : String := "member"

/-- The users collection. -/
abbrev UserDB := List UserDoc

/-- Model of `User.findOne({ email })`. -/
def findOne (db : UserDB) (email : String) : Option UserDoc :=
  db.find? (fun u => u.email = email)

/-- Model of `User.findById(id)`. -/
def findById (db : UserDB) (id : Nat) : Option UserDoc :=
  db.find? (fun u => u._id = id)

/-- Model of `User.create({ name, email, password })` with a storage-assigned fresh
`_id` and the schema default role. -/
def createUser (db : UserDB) (u : UserDoc) : UserDB :=
  db ++ [u]

/-- Shallow JSON values, enough for the response bodies of the handlers. -/
inductive Json where
  | str (s : String)
  | num (n : Nat)
  | obj (fields : List (String × Json))

mutual

/-- Whether a JSON value has a field named `k` anywhere inside it. -/
def jsonHasKey (k : String) : Json → Bool
  | .str _ => false
  | .num _ => false
  | .obj fs => jsonFieldsHaveKey k fs

/-- Helper of `jsonHasKey` over field lists. -/
def jsonFieldsHaveKey (k : String) : List (String × Json) → Bool
  | [] => false
  | (k', v) :: rest =>
    k' = k || jsonHasKey k v || jsonFieldsHaveKey k rest

end

mutual

/-- Whether a JSON value mentions the string `s` as a string leaf. -/
def jsonHasStr (s : String) : Json → Bool
  | .str s' => s' = s
  | .num _ => false
  | .obj fs => jsonFieldsHaveStr s fs

/-- Helper of `jsonHasStr` over field lists. -/
def jsonFieldsHaveStr (s : String) : List (String × Json) → Bool
  | [] => false
  | (_, v) :: rest => jsonHasStr s v || jsonFieldsHaveStr s rest

end

/-- Mongoose serialization of a full user document, every schema field
included. -/
def userDocJson (u : UserDoc) : Json :=
  .obj [("_id", .num u._id), ("name", .str u.name), ("email", .str u.email),
        ("password", .str u.password), ("role", .str u.role)]

/-- A `res.cookie(name, value, options)` call made by `setCookies`. -/
structure SetCookie where
  name : String
  value : Token
  httpOnly : Bool
  sameSiteStrict : Bool
  maxAgeMs : Nat
deriving DecidableEq, Repr

/-- Function `setCookies(res, accessToken, refreshToken)` from auth.controller.js:
both cookies httpOnly and sameSite strict; access cookie max-age 15 minutes,
refresh cookie max-age 7 days (milliseconds). -/
def setCookies (accessToken refreshToken : Token) : List SetCookie :=
  [{ name := "accessToken", value := accessToken, httpOnly := true,
     sameSiteStrict := true, maxAgeMs := 15 * 60 * 1000 },
   { name := "refreshToken", value := refreshToken, httpOnly := true,
     sameSiteStrict := true, maxAgeMs := 7 * 24 * 60 * 60 * 1000 }]

/-- The cookie jar of an inbound request (`req.cookies`). -/
structure Cookies where
  accessToken : Option PresentedToken
  refreshToken : Option PresentedToken
deriving DecidableEq, Repr

/-- Outcome of a middleware stage: either `next()` was called (for
`protectRoute`, with the loaded user attached as `req.user`), or the stage
responded with a status and message without calling `next`. -/
inductive MwOutcome where
  | next (user : UserDoc)
  | respond (status : Nat) (message : String)
deriving DecidableEq, Repr

/-- Model of `.select("-password")`: the loaded user without its password hash. -/
def stripPassword (u : UserDoc) : UserDoc :=
  { u with password := "" }

/-- Function `protectRoute` from src/backend/middleware/auth.middleware.js: missing
cookie → 401 No access token; `jwt.verify` raising `TokenExpiredError` is
caught by the inner handler → 401 (with the source's literal message
"Unauthorized - User not found"); any other verify error is rethrown to the
outer handler → 500 "Server error"; a verified token whose user id is not in
the directory → 401 User not found; otherwise `req.user` is set to the
password-stripped user and `next()` runs. -/
def protectRoute (db : UserDB) (cookies : Cookies) (now : Nat) : MwOutcome :=
  match cookies.accessToken with
  | none => .respond 401 "Unauthorized - No access token"
  | some tok =>
    match jwtVerify tok .access now with
    | .expired => .respond 401 "Unauthorized - User not found"
    | .invalid => .respond 500 "Server error"
    | .ok userId =>
      match findById db userId with
      | none => .respond 401 "Unauthorized - User not found"
      | some user => .next (stripPassword user)

/-- Function `adminRoute` from auth.middleware.js: `next()` iff `req.user` is
attached and its role is "admin", else 403. -/
def adminRoute (user : Option UserDoc) : MwOutcome :=
  match user with
  | some u => if u.role = "admin" then .next u else .respond 403 "Access denied - Admin only"
  | none => .respond 403 "Access denied - Admin only"

/-- What a controller handler did: the HTTP status and body it sent, the
cookies it set, and the resulting database and Redis states. -/
structure HandlerResult where
  status : Nat
  body : Json
  cookiesSet : List SetCookie
  db : UserDB
  store : RedisStore

/-- The response body of the canonical signup's 201: the created identity
projected to `_id`, `name`, `email`, `role` — the password hash field is
omitted by construction. -/
def signupSuccessBody (nu : UserDoc) : Json :=
  .obj [("newUser", .obj [("_id", .num nu._id), ("name", .str nu.name),
                          ("email", .str nu.email), ("role", .str nu.role)]),
        ("message", .str "User created successfully")]

/-- Function `signup` from auth.controller.js (the canonical revision, lines 98-131):
if a user with the email exists respond 400 and change nothing; otherwise
create the user, mint a token pair for `newUser._id`, store the refresh
token, set both cookies and respond 201 with the projected identity.
`freshId` is the storage-assigned `_id` of the created document. -/
def signup (name email password : String) (db : UserDB) (store : RedisStore)
    (now freshId : Nat) : HandlerResult :=
  match findOne db email with
  | some _ =>
    { status := 400, body := .obj [("message", .str "User already exists")],
      cookiesSet := [], db := db, store := store }
  | none =>
    let newUser : UserDoc :=
      { _id := freshId, name := name, email := email, password := password,
        role := defaultRole }
    let db' := createUser db newUser
    let accessToken := (generateTokens newUser._id now).1
    let refreshToken := (generateTokens newUser._id now).2
    let store' := storeRefreshToken newUser._id refreshToken store
    { status := 201, body := signupSuccessBody newUser,
      cookiesSet := setCookies accessToken refreshToken, db := db', store := store' }

/-- JS property access `x._id` on a nullable binding: a `TypeError` when the
binding is null, the `_id` field otherwise. -/
def jsGetId : Option UserDoc → Except String Nat
  | none => .error "Cannot read properties of null (reading _id)"
  | some u => .ok u._id

/-- The superseded `signup` revision at lines 211-236 of the same file: it
reads `user._id` (the null result of the existence check) instead of
`newUser._id` when minting tokens; the thrown `TypeError` lands in the catch
block, which answers 500 — after `User.create` already ran. The `.ok` arm
transcribes the rest of that revision (its 201 serializes the full
document). -/
def signupV3 (name email password : String) (db : UserDB) (store : RedisStore)
    (now freshId : Nat) : HandlerResult :=
  match findOne db email with
  | some _ =>
    { status := 400, body := .obj [("message", .str "User already exists")],
      cookiesSet := [], db := db, store := store }
  | none =>
    let newUser : UserDoc :=
      { _id := freshId, name := name, email := email, password := password,
        role := defaultRole }
    let db' := createUser db newUser
    match jsGetId (none : Option UserDoc) with
    | .error msg =>
      { status := 500, body := .obj [("message", .str msg)],
        cookiesSet := [], db := db', store := store }
    | .ok uid =>
      let accessToken := (generateTokens uid now).1
      let refreshToken := (generateTokens uid now).2
      { status := 201,
        body := .obj [("newUser", userDocJson newUser),
                      ("message", .str "User created successfully")],
        cookiesSet := setCookies accessToken refreshToken,
        db := db', store := storeRefreshToken uid refreshToken store }

/-- Function `login` from auth.controller.js: `res.send("Login route called")` — a
stub that reads neither the body nor any store; `res.send` defaults the
status to 200. -/
def login (_email _password : String) (db : UserDB) (store : RedisStore) :
    HandlerResult :=
  { status := 200, body := .str "Login route called", cookiesSet := [],
    db := db, store := store }

/-- What `logout` did: status, body message, which cookies it cleared, and
the resulting Redis state. -/
structure LogoutResult where
  status : Nat
  message : String
  clearedCookies : List String
  store : RedisStore
deriving DecidableEq, Repr

/-- Function `logout` from auth.controller.js (lines 147-165): with no refresh
cookie, clear both cookies and answer 200; with one present, `jwt.verify` it
— on success delete the session record then clear both cookies and answer
200, but a verify failure throws into the catch block, which answers 500
with the error's message and never reaches the clearCookie calls. -/
def logout (cookies : Cookies) (store : RedisStore) (now : Nat) : LogoutResult :=
  match cookies.refreshToken with
  | none =>
    { status := 200, message := "Logout successful",
      clearedCookies := ["accessToken", "refreshToken"], store := store }
  | some tok =>
    match jwtVerify tok .refresh now with
    | .ok userId =>
      { status := 200, message := "Logout successful",
        clearedCookies := ["accessToken", "refreshToken"],
        store := redisDel store (refreshKey userId) }
    | .expired =>
      { status := 500, message := "jwt expired", clearedCookies := [], store := store }
    | .invalid =>
      { status := 500, message := "jwt malformed", clearedCookies := [], store := store }

/-! ## Helper lemmas -/

theorem filter_ne_of_filter_ne (s : RedisStore) (k : String) :
    (s.filter (fun e => e.1 ≠ k)).filter (fun e => e.1 = k) = [] := by
  induction s with
  | nil => rfl
  | cons e rest ih =>
    by_cases h : e.1 = k <;> simp [List.filter, h, ih]

theorem filter_ne_idem (s : RedisStore) (k : String) :
    (s.filter (fun e => e.1 ≠ k)).filter (fun e => e.1 ≠ k)
      = s.filter (fun e => e.1 ≠ k) := by
  induction s with
  | nil => rfl
  | cons e rest ih =>
    by_cases h : e.1 = k <;> simp [List.filter, h, ih]

/-! ## Claim theorems -/

/-- C3: the session store keeps at most one live record per user: after
`storeRefreshToken u t`, the key `refresh_token:{u}` holds exactly `t` with
TTL `7 * 24 * 60 * 60` seconds (7 days) and is the only entry for that key;
a second store for the same user overwrites the first (last writer wins),
and storing the same pair twice is idempotent. -/
theorem storeRefreshToken_single_session (u : Nat) (t t' : Token) (s : RedisStore) :
    redisGet (storeRefreshToken u t s) (refreshKey u) = some (t, 7 * 24 * 60 * 60)
    ∧ countKey (storeRefreshToken u t s) (refreshKey u) = 1
    ∧ storeRefreshToken u t' (storeRefreshToken u t s) = storeRefreshToken u t' s
    ∧ storeRefreshToken u t (storeRefreshToken u t s) = storeRefreshToken u t s := by
  refine ⟨?_, ?_, ?_, ?_⟩
  · simp [storeRefreshToken, redisSet, redisGet, List.find?]
  · simp [storeRefreshToken, redisSet, countKey, List.filter,
      filter_ne_of_filter_ne]
  · simp [storeRefreshToken, redisSet, List.filter, filter_ne_idem]
  · simp [storeRefreshToken, redisSet, List.filter, filter_ne_idem]

/-- C8: `generateTokens u` mints an access token and a refresh token signed
with the two distinct secret keys; verifying the access token with the
access key at time `t` yields the claim `userId = u` exactly when `t` is
strictly before the 15-minute expiry and fails `Expired` at or after that
boundary; the refresh token expires 7 days after issue. -/
theorem generateTokens_roundtrip (u now t : Nat) :
    ((generateTokens u now).1).key = .access
    ∧ ((generateTokens u now).2).key = .refresh
    ∧ SecretKey.access ≠ SecretKey.refresh
    ∧ (jwtVerify (.valid (generateTokens u now).1) .access t = .ok u
        ↔ t < now + 15 * 60)
    ∧ (now + 15 * 60 ≤ t →
        jwtVerify (.valid (generateTokens u now).1) .access t = .expired)
    ∧ ((generateTokens u now).2).exp = now + 7 * 24 * 60 * 60 := by
  refine ⟨rfl, rfl, by simp, ?_, ?_, rfl⟩
  · simp only [generateTokens, jwtSign, jwtVerify, accessTokenTTL]
    constructor
    · intro h
      by_contra hge
      simp [Nat.le_of_not_lt hge] at h
    · intro h
      simp [Nat.not_le_of_lt h]
  · intro h
    simp [generateTokens, jwtSign, jwtVerify, accessTokenTTL, h]

/-- C8 witness: at concrete times 500 (inside the window) and 1000 (the
boundary) for a token minted at 100. -/
theorem generateTokens_roundtrip_witness :
    jwtVerify (.valid (generateTokens 7 100).1) .access 500 = .ok 7
    ∧ jwtVerify (.valid (generateTokens 7 100).1) .access 1000 = .expired :=
  ⟨(generateTokens_roundtrip 7 100 500).2.2.2.1.mpr (by decide),
   (generateTokens_roundtrip 7 100 1000).2.2.2.2.1 (by decide)⟩

/-- C1 counterexample: a present but malformed access token fails
verification with `Invalid`, yet `protectRoute` answers 500 "Server error",
not 401 — the inner handler catches only `TokenExpiredError` and rethrows
everything else into the 500 branch. -/
theorem protectRoute_invalid_gets_500 :
    jwtVerify .malformed .access 0 = .invalid
    ∧ protectRoute [] ⟨some .malformed, none⟩ 0 = .respond 500 "Server error" :=
  ⟨rfl, rfl⟩

/-- C1 amended: with an access token present, an `Expired` verification
failure is answered 401 (with the source's literal message) and `next` is
not called, but an `Invalid` failure (bad signature, malformed) is answered
500, not 401; in both cases `next` is not called. -/
theorem protectRoute_bad_token (db : UserDB) (c : Cookies) (now : Nat)
    (tok : PresentedToken) (h : c.accessToken = some tok) :
    (jwtVerify tok .access now = .expired →
      protectRoute db c now = .respond 401 "Unauthorized - User not found")
    ∧ (jwtVerify tok .access now = .invalid →
      protectRoute db c now = .respond 500 "Server error") := by
  constructor <;> intro hv <;> simp [protectRoute, h, hv]

/-- C1 amended witness: an expired token (minted with expiry 10, presented
at time 10) gets 401; a malformed token gets 500. -/
theorem protectRoute_bad_token_witness :
    protectRoute [] ⟨some (.valid ⟨1, .access, 0, 10⟩), none⟩ 10
      = .respond 401 "Unauthorized - User not found"
    ∧ protectRoute [] ⟨some .malformed, none⟩ 3 = .respond 500 "Server error" :=
  ⟨(protectRoute_bad_token [] ⟨some (.valid ⟨1, .access, 0, 10⟩), none⟩ 10
      (.valid ⟨1, .access, 0, 10⟩) rfl).1 (by decide),
   (protectRoute_bad_token [] ⟨some .malformed, none⟩ 3 .malformed rfl).2 rfl⟩

/-- C5: `adminRoute` calls `next` if and only if an identity is attached
and its role is "admin"; in every other case — including no attached
identity at all — it answers 403 "Access denied - Admin only". -/
theorem adminRoute_admin_only (user : Option UserDoc) :
    ((∃ u, user = some u ∧ u.role = "admin") ↔ ∃ u, adminRoute user = .next u)
    ∧ ((∀ u, adminRoute user ≠ .next u) →
        adminRoute user = .respond 403 "Access denied - Admin only") := by
  constructor
  · constructor
    · rintro ⟨u, rfl, hrole⟩
      exact ⟨u, by simp [adminRoute, hrole]⟩
    · rintro ⟨u, hnext⟩
      match user with
      | none => simp [adminRoute] at hnext
      | some v =>
        by_cases hrole : v.role = "admin"
        · exact ⟨v, rfl, hrole⟩
        · simp [adminRoute, hrole] at hnext
  · intro hno
    match user with
    | none => rfl
    | some v =>
      by_cases hrole : v.role = "admin"
      · exact absurd (by simp [adminRoute, hrole]) (hno v)
      · simp [adminRoute, hrole]

/-- C5 witness: an attached admin identity passes; no identity is refused
with 403. -/
theorem adminRoute_admin_only_witness :
    (∃ u, adminRoute (some ⟨1, "a", "a@x.com", "h", "admin"⟩) = .next u)
    ∧ adminRoute none = .respond 403 "Access denied - Admin only" :=
  ⟨(adminRoute_admin_only (some ⟨1, "a", "a@x.com", "h", "admin"⟩)).1.mp
      ⟨⟨1, "a", "a@x.com", "h", "admin"⟩, rfl, rfl⟩,
   (adminRoute_admin_only none).2 (fun u h => by simp [adminRoute] at h)⟩

/-- C9 counterexample: an expired token and a valid token whose user no
longer exists produce the identical response — the same 401 status and the
same literal message "Unauthorized - User not found" — so those two
credential-failure causes are not distinguishable by the caller. -/
theorem protectRoute_reason_collision :
    jwtVerify (.valid ⟨1, .access, 0, 10⟩) .access 10 = .expired
    ∧ jwtVerify (.valid ⟨1, .access, 0, 10⟩) .access 5 = .ok 1
    ∧ findById [] 1 = none
    ∧ protectRoute [] ⟨some (.valid ⟨1, .access, 0, 10⟩), none⟩ 10
        = protectRoute [] ⟨some (.valid ⟨1, .access, 0, 10⟩), none⟩ 5 := by
  refine ⟨by decide, by decide, rfl, rfl⟩

/-- C9 amended: the verification stage's responses separate three classes —
missing token (401 "Unauthorized - No access token"), invalid token (500
"Server error"), and the merged class of expired token or user-not-found
(401 "Unauthorized - User not found") — and those three responses are
pairwise distinct; expired and user-not-found, however, share one
response. -/
theorem protectRoute_reasons (db : UserDB) (c : Cookies) (now : Nat) :
    (c.accessToken = none →
      protectRoute db c now = .respond 401 "Unauthorized - No access token")
    ∧ (∀ tok, c.accessToken = some tok → jwtVerify tok .access now = .invalid →
      protectRoute db c now = .respond 500 "Server error")
    ∧ (∀ tok, c.accessToken = some tok → jwtVerify tok .access now = .expired →
      protectRoute db c now = .respond 401 "Unauthorized - User not found")
    ∧ (∀ tok u, c.accessToken = some tok → jwtVerify tok .access now = .ok u →
      findById db u = none →
      protectRoute db c now = .respond 401 "Unauthorized - User not found")
    ∧ (MwOutcome.respond 401 "Unauthorized - No access token"
        ≠ .respond 401 "Unauthorized - User not found"
      ∧ MwOutcome.respond 401 "Unauthorized - No access token"
        ≠ .respond 500 "Server error"
      ∧ MwOutcome.respond 401 "Unauthorized - User not found"
        ≠ .respond 500 "Server error") := by
  refine ⟨?_, ?_, ?_, ?_, by decide, by decide, by decide⟩
  · intro h; simp [protectRoute, h]
  · intro tok h hv; simp [protectRoute, h, hv]
  · intro tok h hv; simp [protectRoute, h, hv]
  · intro tok u h hv hu; simp [protectRoute, h, hv, hu]

/-- C9 amended witness: the three response classes at concrete inputs. -/
theorem protectRoute_reasons_witness :
    protectRoute [] ⟨none, none⟩ 0 = .respond 401 "Unauthorized - No access token"
    ∧ protectRoute [] ⟨some .malformed, none⟩ 0 = .respond 500 "Server error"
    ∧ protectRoute [] ⟨some (.valid ⟨1, .access, 0, 10⟩), none⟩ 10
        = .respond 401 "Unauthorized - User not found" :=
  ⟨(protectRoute_reasons [] ⟨none, none⟩ 0).1 rfl,
   (protectRoute_reasons [] ⟨some .malformed, none⟩ 0).2.1 .malformed rfl rfl,
   (protectRoute_reasons [] ⟨some (.valid ⟨1, .access, 0, 10⟩), none⟩ 10).2.2.1
     (.valid ⟨1, .access, 0, 10⟩) rfl (by decide)⟩

/-- C2 counterexample: a logout request carrying a malformed refresh-token
cookie is answered 500 with no cookie cleared — the `jwt.verify` failure
throws past the `clearCookie` calls into the catch block. -/
theorem logout_invalid_gets_500 :
    logout ⟨none, some .malformed⟩ [] 0
      = { status := 500, message := "jwt malformed", clearedCookies := [],
          store := [] } := rfl

/-- C2 amended: logout clears both cookies and answers 200 when the refresh
cookie is absent, or when it is present and verifies (then the session
record is deleted first); but when the present cookie fails verification
(expired or invalid), logout answers 500 and clears no cookie. -/
theorem logout_lenient_only_without_token (c : Cookies) (s : RedisStore) (now : Nat) :
    (c.refreshToken = none →
      logout c s now =
        { status := 200, message := "Logout successful",
          clearedCookies := ["accessToken", "refreshToken"], store := s })
    ∧ (∀ tok u, c.refreshToken = some tok → jwtVerify tok .refresh now = .ok u →
      logout c s now =
        { status := 200, message := "Logout successful",
          clearedCookies := ["accessToken", "refreshToken"],
          store := redisDel s (refreshKey u) })
    ∧ (∀ tok, c.refreshToken = some tok →
      (jwtVerify tok .refresh now = .expired ∨ jwtVerify tok .refresh now = .invalid) →
      (logout c s now).status = 500 ∧ (logout c s now).clearedCookies = []) := by
  refine ⟨?_, ?_, ?_⟩
  · intro h; simp [logout, h]
  · intro tok u h hv; simp [logout, h, hv]
  · intro tok h hv
    rcases hv with hv | hv <;> simp [logout, h, hv]

/-- C2 amended witness: no cookie present → 200 with both cookies cleared;
a malformed cookie → 500 with none cleared. -/
theorem logout_lenient_only_without_token_witness :
    logout ⟨none, none⟩ [] 0
      = { status := 200, message := "Logout successful",
          clearedCookies := ["accessToken", "refreshToken"], store := [] }
    ∧ (logout ⟨none, some .malformed⟩ [] 5).status = 500
    ∧ (logout ⟨none, some .malformed⟩ [] 5).clearedCookies = [] :=
  ⟨(logout_lenient_only_without_token ⟨none, none⟩ [] 0).1 rfl,
   ((logout_lenient_only_without_token ⟨none, some .malformed⟩ [] 5).2.2
      .malformed rfl (Or.inr rfl)).1,
   ((logout_lenient_only_without_token ⟨none, some .malformed⟩ [] 5).2.2
      .malformed rfl (Or.inr rfl)).2⟩

/-- C4: a successful signup (previously unused email) answers 201 and its
response body has no `password` field anywhere; moreover, whenever the
password hash differs from the other serialized strings, it does not occur
as any string value of the body. -/
theorem signup_response_hides_password (name email password : String)
    (db : UserDB) (s : RedisStore) (now freshId : Nat)
    (h : findOne db email = none) :
    (signup name email password db s now freshId).status = 201
    ∧ jsonHasKey "password" (signup name email password db s now freshId).body = false
    ∧ (password ≠ name → password ≠ email → password ≠ defaultRole →
       password ≠ "User created successfully" →
       jsonHasStr password (signup name email password db s now freshId).body
         = false) := by
  refine ⟨by simp [signup, h], ?_, ?_⟩
  · simp [signup, h, signupSuccessBody, jsonHasKey, jsonFieldsHaveKey]
  · intro h1 h2 h3 h4
    have h3m : ¬("member" = password) := fun e => h3 (by simpa [defaultRole] using e.symm)
    simp [signup, h, signupSuccessBody, jsonHasStr, jsonFieldsHaveStr,
      Ne.symm h1, Ne.symm h2, h3m, Ne.symm h4, defaultRole]

/-- C4 witness: a concrete fresh signup. -/
theorem signup_response_hides_password_witness :
    (signup "a" "a@x.com" "hash" [] [] 0 1).status = 201
    ∧ jsonHasKey "password" (signup "a" "a@x.com" "hash" [] [] 0 1).body = false
    ∧ jsonHasStr "hash" (signup "a" "a@x.com" "hash" [] [] 0 1).body = false :=
  ⟨(signup_response_hides_password "a" "a@x.com" "hash" [] [] 0 1 rfl).1,
   (signup_response_hides_password "a" "a@x.com" "hash" [] [] 0 1 rfl).2.1,
   (signup_response_hides_password "a" "a@x.com" "hash" [] [] 0 1 rfl).2.2
     (by decide) (by decide) (by decide) (by decide)⟩

/-- C6 counterexample: with an empty user directory the email matches no
user, yet `login` answers 200 with the plain text "Login route called" —
not `Unauthorized(InvalidCredentials)` — and neither mints tokens nor
touches the session store. -/
theorem login_stub_not_unauthorized :
    findOne [] "a@x.com" = none
    ∧ login "a@x.com" "p1" [] []
        = { status := 200, body := .str "Login route called", cookiesSet := [],
            db := [], store := [] } :=
  ⟨rfl, rfl⟩

/-- C6 amended: `login` is an unimplemented stub: for every request it
answers 200 with the body "Login route called", reads neither credential,
sets no cookie, and leaves the user directory and the session store
unchanged. -/
theorem login_stub (email password : String) (db : UserDB) (s : RedisStore) :
    login email password db s
      = { status := 200, body := .str "Login route called", cookiesSet := [],
          db := db, store := s } := rfl

/-- C7: signup with an already-used email answers 400 "User already exists"
and is atomic on this error: the user directory and the session store are
returned unchanged and no cookie is set. -/
theorem signup_email_taken_atomic (name email password : String) (db : UserDB)
    (s : RedisStore) (now freshId : Nat) (u : UserDoc)
    (h : findOne db email = some u) :
    signup name email password db s now freshId
      = { status := 400, body := .obj [("message", .str "User already exists")],
          cookiesSet := [], db := db, store := s } := by
  simp [signup, h]

/-- C7 witness: signing up again with the one email already in the
directory. -/
theorem signup_email_taken_atomic_witness :
    signup "b" "a@x.com" "h2" [⟨1, "a", "a@x.com", "h1", "member"⟩] [] 9 2
      = { status := 400, body := .obj [("message", .str "User already exists")],
          cookiesSet := [],
          db := [⟨1, "a", "a@x.com", "h1", "member"⟩], store := [] } :=
  signup_email_taken_atomic "b" "a@x.com" "h2"
    [⟨1, "a", "a@x.com", "h1", "member"⟩] [] 9 2
    ⟨1, "a", "a@x.com", "h1", "member"⟩ rfl

/-- C10: the superseded signup revision (lines 211-236) can never complete
a signup: on a fresh email it answers 500 after the User record was already
created (the token step dereferences the null existence-check binding), it
writes no session record and sets no cookies; and on any input its status
is never 201. -/
theorem signupV3_never_succeeds (name email password : String) (db : UserDB)
    (s : RedisStore) (now freshId : Nat) :
    (findOne db email = none →
      (signupV3 name email password db s now freshId).status = 500
      ∧ (signupV3 name email password db s now freshId).db
          = createUser db ⟨freshId, name, email, password, defaultRole⟩
      ∧ (signupV3 name email password db s now freshId).cookiesSet = []
      ∧ (signupV3 name email password db s now freshId).store = s)
    ∧ (signupV3 name email password db s now freshId).status ≠ 201 := by
  constructor
  · intro h
    refine ⟨?_, ?_, ?_, ?_⟩ <;> simp [signupV3, h, jsGetId]
  · match hf : findOne db email with
    | some u => simp [signupV3, hf]
    | none => simp [signupV3, hf, jsGetId]

/-- C10 witness: a fresh signup against the empty directory ends 500 with
the account created and no session written. -/
theorem signupV3_never_succeeds_witness :
    (signupV3 "a" "a@x.com" "h" [] [] 0 1).status = 500
    ∧ (signupV3 "a" "a@x.com" "h" [] [] 0 1).db
        = createUser [] ⟨1, "a", "a@x.com", "h", defaultRole⟩
    ∧ (signupV3 "a" "a@x.com" "h" [] [] 0 1).cookiesSet = []
    ∧ (signupV3 "a" "a@x.com" "h" [] [] 0 1).store = [] :=
  (signupV3_never_succeeds "a" "a@x.com" "h" [] [] 0 1).1 rfl

end ECom
